import Mathlib

/-!
Verification of the stereo triangulation geometry engine
(`distance_calculation.py`) of the object-detection application.

The embedding keeps the source's names and control flow.  Degree values,
pixel coordinates and configuration scalars are modelled as rationals
(every Python float value is a rational number); the trigonometric part of
the computation lives in `ℝ`.  Observation records are dictionaries that
may miss keys, modelled as structures of `Option` fields; a missing key
takes the `except`-branch of the source, which returns an absent distance
carrying the fault description.
-/

namespace ObjDetection

/-- Degree-to-radian conversion `x * pi / 180`, as `math.radians` /
`np.radians` compute it, applied to a rational degree value. -/
noncomputable def radians (d : ℚ) : ℝ := (d : ℝ) * Real.pi / 180

/-- State of a `DistanceCalculation` instance: the constructor arguments
`fov_horizontal` (degrees) and `cameras_distance` (meters), the lazily
initialised `pixel_to_angle_ratio_x` (`None` until
`update_pixel_to_angle_ratio` is called) and the derived `focal_length`. -/
structure DistanceCalculation where
  fov_horizontal : ℚ
  cameras_distance : ℚ
  pixel_to_angle_ratio_x : Option ℚ
  focal_length : ℝ

/-- The constructor `DistanceCalculation.__init__`: stores the field of
view and camera baseline, leaves the pixel-to-angle ratio unset, and
computes `focal_length = 640 / (2 * tan(radians(fov_horizontal / 2)))`
with the fixed reference image width 640. -/
noncomputable def DistanceCalculation.make (fov_horizontal cameras_distance : ℚ) :
    DistanceCalculation :=
  ⟨fov_horizontal, cameras_distance, none,
    640 / (2 * Real.tan ( radians (fov_horizontal / 2)))⟩

/-- The method `update_pixel_to_angle_ratio`: sets
`pixel_to_angle_ratio_x = fov_horizontal / res_width` and changes nothing
else (the Python method returns `None`; the embedding returns the updated
state). -/
def update_pixel_to_angle_ratio (self : DistanceCalculation) (res_width : ℚ) :
    DistanceCalculation :=
  { self with pixel_to_angle_ratio_x := some (self.fov_horizontal / res_width) }

/-- An observation dictionary as `calculate_distance` receives it: the
three keys it may look up, each possibly missing. -/
structure ImageDict where
  img_center_x : Option ℚ
  obj_center_x : Option ℚ
  angle_of_view_x : Option ℚ

/-- The value `calculate_distance` and `calculate_distance_using_disparity`
return: a dictionary with a `distance` entry (`None` or a number) and a
`details` text. -/
structure DistanceResult where
  distance : Option ℝ
  details : String

/-- The sign-based case analysis at the head of `calculate_distance`
(the `if/elif/elif/else` chain on the two `angle_of_view_x` values):
returns the case label together with `internal_angle_left_x` and
`internal_angle_right_x`, or `none` for the `"unknown"` case. -/
def classify (angle_of_view_left_x angle_of_view_right_x : ℚ) :
    Option (String × ℚ × ℚ) :=
  if angle_of_view_left_x < 0 ∧ 0 < angle_of_view_right_x then
    some ("between the cameras",
      90 - |angle_of_view_left_x|, 90 - |angle_of_view_right_x|)
  else if 0 < angle_of_view_left_x ∧ 0 < angle_of_view_right_x then
    some ("to the left of the left camera",
      90 + |angle_of_view_left_x|, 90 - |angle_of_view_right_x|)
  else if angle_of_view_left_x < 0 ∧ angle_of_view_right_x < 0 then
    some ("to the right of the right camera",
      90 - |angle_of_view_left_x|, 90 + |angle_of_view_right_x|)
  else
    none

/-- The tail of `calculate_distance` after classification: the degenerate
triangle guard, the `denominator` (squared sine of the object's internal
angle), the `value_inside_sqrt` guard and the final distance formula
`(cameras_distance / 2) * sqrt(value_inside_sqrt)`. -/
noncomputable def triangulate (cameras_distance : ℚ) (case_label : String)
    (internal_angle_left_x internal_angle_right_x : ℚ) : DistanceResult :=
  let internal_angle_obj : ℚ :=
    180 - (internal_angle_left_x + internal_angle_right_x)
  if internal_angle_obj ≤ 0 then
    ⟨none, "Invalid internal angles leading to degenerate triangle."⟩
  else
    let denominator : ℝ := Real.sin ( radians internal_angle_obj) ^ 2
    if denominator = 0 then
      ⟨none, "Division by zero encountered in distance calculation."⟩
    else
      let numerator : ℝ := Real.sin ( radians internal_angle_left_x) ^ 2 +
        Real.sin ( radians internal_angle_right_x) ^ 2
      let value_inside_sqrt : ℝ := 2 * (numerator / denominator) - 1
      if value_inside_sqrt < 0 then
        ⟨none, "Invalid value inside square root in distance calculation."⟩
      else
        ⟨some (((cameras_distance : ℝ) / 2) * Real.sqrt value_inside_sqrt),
          "Object is " ++ case_label ++ "."⟩

/-- The method `calculate_distance`: looks the six keys up in access
order (a missing key raises `KeyError`, caught by the method's `except`
into an absent-distance result naming the fault), classifies the pair by
angle signs, and runs the triangulation tail. -/
noncomputable def calculate_distance (self : DistanceCalculation)
    (left_image right_image : ImageDict) : DistanceResult :=
  match left_image.img_center_x with
  | none => ⟨none, "Error during distance calculation: img_center_x"⟩
  | some _ =>
  match left_image.obj_center_x with
  | none => ⟨none, "Error during distance calculation: obj_center_x"⟩
  | some _ =>
  match left_image.angle_of_view_x with
  | none => ⟨none, "Error during distance calculation: angle_of_view_x"⟩
  | some angle_of_view_left_x =>
  match right_image.img_center_x with
  | none => ⟨none, "Error during distance calculation: img_center_x"⟩
  | some _ =>
  match right_image.obj_center_x with
  | none => ⟨none, "Error during distance calculation: obj_center_x"⟩
  | some _ =>
  match right_image.angle_of_view_x with
  | none => ⟨none, "Error during distance calculation: angle_of_view_x"⟩
  | some angle_of_view_right_x =>
  match classify angle_of_view_left_x angle_of_view_right_x with
  | none =>
    ⟨none, "Unknown case based on angles: left=" ++
      toString angle_of_view_left_x ++ ", right=" ++
      toString angle_of_view_right_x⟩
  | some (case_label, internal_angle_left_x, internal_angle_right_x) =>
    triangulate self.cameras_distance case_label
      internal_angle_left_x internal_angle_right_x

/-- The method `calculate_distance_using_disparity`: reads the two
`obj_center_x` keys (a missing key is caught by the `except` branch),
guards against a zero disparity, and otherwise returns
`(focal_length * cameras_distance) / disparity`. -/
noncomputable def calculate_distance_using_disparity
    (self : DistanceCalculation) (left_image right_image : ImageDict) :
    DistanceResult :=
  match left_image.obj_center_x with
  | none => ⟨none, "Error calculating distance using disparity: obj_center_x"⟩
  | some obj_center_left_x =>
  match right_image.obj_center_x with
  | none => ⟨none, "Error calculating distance using disparity: obj_center_x"⟩
  | some obj_center_right_x =>
  let disparity : ℚ := obj_center_left_x - obj_center_right_x
  if disparity = 0 then
    ⟨none, "Disparity is zero, unable to calculate distance."⟩
  else
    ⟨some (self.focal_length * (self.cameras_distance : ℝ) / (disparity : ℝ)),
      "Distance calculated using disparity and focal length."⟩

/-- Helper: evaluation of the classification at the spec's concrete
scenario, angles `-10` and `8`. -/
theorem classify_neg_ten_eight :
    classify (-10) 8 = some ("between the cameras", 80, 82) := by
  rw [classify, if_pos (by norm_num : (-10 : ℚ) < 0 ∧ (0 : ℚ) < 8)]
  norm_num

/-- C1: for every pair of angles matching one of the three known sign
configurations, the classification step of `calculate_distance` returns
exactly the specified case label and internal angles: left < 0 and
right > 0 gives "between the cameras" with angles `90 - |left|` and
`90 - |right|`; left > 0 and right > 0 gives "to the left of the left
camera" with `90 + |left|` and `90 - |right|`; left < 0 and right < 0
gives "to the right of the right camera" with `90 - |left|` and
`90 + |right|`. -/
theorem classify_cases (angle_of_view_left_x angle_of_view_right_x : ℚ) :
    (angle_of_view_left_x < 0 → 0 < angle_of_view_right_x →
      classify angle_of_view_left_x angle_of_view_right_x =
        some ("between the cameras",
          90 - |angle_of_view_left_x|, 90 - |angle_of_view_right_x|)) ∧
    (0 < angle_of_view_left_x → 0 < angle_of_view_right_x →
      classify angle_of_view_left_x angle_of_view_right_x =
        some ("to the left of the left camera",
          90 + |angle_of_view_left_x|, 90 - |angle_of_view_right_x|)) ∧
    (angle_of_view_left_x < 0 → angle_of_view_right_x < 0 →
      classify angle_of_view_left_x angle_of_view_right_x =
        some ("to the right of the right camera",
          90 - |angle_of_view_left_x|, 90 + |angle_of_view_right_x|)) := by
  refine ⟨fun h1 h2 => ?_, fun h1 h2 => ?_, fun h1 h2 => ?_⟩
  · rw [classify, if_pos ⟨h1, h2⟩]
  · have hn1 : ¬(angle_of_view_left_x < 0 ∧ 0 < angle_of_view_right_x) := by
      rintro ⟨hl, -⟩; exact absurd h1 (not_lt.mpr hl.le)
    rw [classify, if_neg hn1, if_pos ⟨h1, h2⟩]
  · have hn1 : ¬(angle_of_view_left_x < 0 ∧ 0 < angle_of_view_right_x) := by
      rintro ⟨-, hr⟩; exact absurd h2 (not_lt.mpr hr.le)
    have hn2 : ¬(0 < angle_of_view_left_x ∧ 0 < angle_of_view_right_x) := by
      rintro ⟨-, hr⟩; exact absurd h2 (not_lt.mpr hr.le)
    rw [classify, if_neg hn1, if_neg hn2, if_pos ⟨h1, h2⟩]

/-- Witness for C1 at the spec's concrete scenario: angles `-10` and `8`
classify as "between the cameras" with internal angles 80 and 82. -/
theorem classify_cases_witness :
    classify (-10) 8 = some ("between the cameras", 80, 82) := by
  have h := (classify_cases (-10) 8).1 (by norm_num) (by norm_num)
  rw [h]
  norm_num

/-- C4: when the two angle signs match none of the three known
configurations (in particular when either angle is exactly zero),
`calculate_distance` returns an absent distance and a details message
naming both angle values. -/
theorem calculate_distance_unknown (self : DistanceCalculation)
    (i1 o1 al i2 o2 ar : ℚ)
    (hn1 : ¬(al < 0 ∧ 0 < ar)) (hn2 : ¬(0 < al ∧ 0 < ar))
    (hn3 : ¬(al < 0 ∧ ar < 0)) :
    calculate_distance self ⟨some i1, some o1, some al⟩
        ⟨some i2, some o2, some ar⟩ =
      ⟨none, "Unknown case based on angles: left=" ++ toString al ++
        ", right=" ++ toString ar⟩ := by
  have hc : classify al ar = none := by
    rw [classify, if_neg hn1, if_neg hn2, if_neg hn3]
  simp only [calculate_distance, hc]

/-- Witness for C4: with left angle 0 and right angle 5 the result is the
unknown-case message carrying both values. -/
theorem calculate_distance_unknown_witness :
    calculate_distance (DistanceCalculation.make 55 (53/200))
        ⟨some 320, some 300, some 0⟩ ⟨some 320, some 280, some 5⟩ =
      ⟨none, "Unknown case based on angles: left=" ++ toString (0 : ℚ) ++
        ", right=" ++ toString (5 : ℚ)⟩ :=
  calculate_distance_unknown (DistanceCalculation.make 55 (53/200))
    320 300 0 320 280 5 (by norm_num) (by norm_num) (by norm_num)

/-- C5: for every classified pair whose internal camera angles sum to 180
degrees or more, `calculate_distance` returns an absent distance with the
degenerate-triangle message. -/
theorem calculate_distance_degenerate (self : DistanceCalculation)
    (i1 o1 al i2 o2 ar : ℚ) (case_label : String) (A B : ℚ)
    (hc : classify al ar = some (case_label, A, B)) (hAB : 180 ≤ A + B) :
    calculate_distance self ⟨some i1, some o1, some al⟩
        ⟨some i2, some o2, some ar⟩ =
      ⟨none, "Invalid internal angles leading to degenerate triangle."⟩ := by
  simp only [calculate_distance, hc, triangulate]
  rw [if_pos (by linarith : (180 : ℚ) - (A + B) ≤ 0)]

/-- Witness for C5: left angle 10 and right angle 5 give internal angles
100 and 85, whose sum 185 exceeds 180, so the result is the
degenerate-triangle message. -/
theorem calculate_distance_degenerate_witness :
    calculate_distance (DistanceCalculation.make 55 (53/200))
        ⟨some 320, some 100, some 10⟩ ⟨some 320, some 250, some 5⟩ =
      ⟨none, "Invalid internal angles leading to degenerate triangle."⟩ := by
  have hc : classify 10 5 =
      some ("to the left of the left camera", 100, 85) := by
    rw [classify, if_neg (by norm_num : ¬((10 : ℚ) < 0 ∧ (0 : ℚ) < 5)),
      if_pos (by norm_num : (0 : ℚ) < 10 ∧ (0 : ℚ) < 5)]
    norm_num
  exact calculate_distance_degenerate (DistanceCalculation.make 55 (53/200))
    320 100 10 320 250 5 "to the left of the left camera" 100 85 hc
    (by norm_num)

/-- C9: `update_pixel_to_angle_ratio` sets the ratio field to
`fov_horizontal / res_width` and leaves the field of view, the camera
baseline and the focal length unchanged. -/
theorem update_pixel_to_angle_ratio_spec (self : DistanceCalculation)
    (res_width : ℚ) (h : 0 < res_width) :
    ( update_pixel_to_angle_ratio self res_width).pixel_to_angle_ratio_x =
        some (self.fov_horizontal / res_width) ∧
    ( update_pixel_to_angle_ratio self res_width).fov_horizontal =
        self.fov_horizontal ∧
    ( update_pixel_to_angle_ratio self res_width).cameras_distance =
        self.cameras_distance ∧
    ( update_pixel_to_angle_ratio self res_width).focal_length =
        self.focal_length :=
  ⟨rfl, rfl, rfl, rfl⟩

/-- Witness for C9: with field of view 55 and width 320 the updated ratio
is `55 / 320 = 0.171875`. -/
theorem update_pixel_to_angle_ratio_spec_witness :
    ( update_pixel_to_angle_ratio (DistanceCalculation.make 55 (53/200))
        320).pixel_to_angle_ratio_x = some (0.171875 : ℚ) := by
  have h := update_pixel_to_angle_ratio_spec
    (DistanceCalculation.make 55 (53/200)) 320 (by norm_num)
  rw [h.1]
  norm_num [DistanceCalculation.make]

/-- C10: the triangulation result depends only on the two angle values
and the configured camera baseline: for key-complete observation records
agreeing on both angles, and engine states agreeing on
`cameras_distance`, the results coincide whatever the pixel-center
fields, the ratio state, or the other configuration fields are. -/
theorem calculate_distance_angle_only (s1 s2 : DistanceCalculation)
    (hb : s1.cameras_distance = s2.cameras_distance)
    (i1 o1 j1 p1 i2 o2 j2 p2 al ar : ℚ) :
    calculate_distance s1 ⟨some i1, some o1, some al⟩
        ⟨some j1, some p1, some ar⟩ =
      calculate_distance s2 ⟨some i2, some o2, some al⟩
        ⟨some j2, some p2, some ar⟩ := by
  simp only [calculate_distance, hb]

/-- Witness for C10: two states with the same baseline but different
ratio states, applied to records with different pixel centers but the
same angles, give the same result. -/
theorem calculate_distance_angle_only_witness :
    calculate_distance (DistanceCalculation.make 55 (53/200))
        ⟨some 320, some 100, some (-10)⟩ ⟨some 320, some 200, some 8⟩ =
      calculate_distance
        ( update_pixel_to_angle_ratio (DistanceCalculation.make 55 (53/200))
          640)
        ⟨some 640, some 555, some (-10)⟩ ⟨some 640, some 111, some 8⟩ :=
  calculate_distance_angle_only _ _ rfl 320 100 320 200 640 555 640 111
    (-10) 8

/-- C6: `calculate_distance_using_disparity` computes the disparity as
left minus right object center; a zero disparity gives an absent
distance, and otherwise the distance is
`focal_length * cameras_distance / disparity`, whose sign matches the
sign of the disparity when focal length and baseline are positive. -/
theorem calculate_distance_using_disparity_spec
    (self : DistanceCalculation) (li la ri ra : Option ℚ)
    (obj_center_left_x obj_center_right_x : ℚ) :
    (obj_center_left_x - obj_center_right_x = 0 →
      calculate_distance_using_disparity self
          ⟨li, some obj_center_left_x, la⟩ ⟨ri, some obj_center_right_x, ra⟩ =
        ⟨none, "Disparity is zero, unable to calculate distance."⟩) ∧
    (obj_center_left_x - obj_center_right_x ≠ 0 →
      calculate_distance_using_disparity self
          ⟨li, some obj_center_left_x, la⟩ ⟨ri, some obj_center_right_x, ra⟩ =
        ⟨some (self.focal_length * (self.cameras_distance : ℝ) /
            ((obj_center_left_x - obj_center_right_x : ℚ) : ℝ)),
          "Distance calculated using disparity and focal length."⟩ ∧
      (0 < self.focal_length → 0 < self.cameras_distance →
        ((0 : ℝ) < ((obj_center_left_x - obj_center_right_x : ℚ) : ℝ) ↔
          0 < self.focal_length * (self.cameras_distance : ℝ) /
            ((obj_center_left_x - obj_center_right_x : ℚ) : ℝ)) ∧
        (((obj_center_left_x - obj_center_right_x : ℚ) : ℝ) < 0 ↔
          self.focal_length * (self.cameras_distance : ℝ) /
            ((obj_center_left_x - obj_center_right_x : ℚ) : ℝ) < 0))) := by
  constructor
  · intro h0
    simp only [calculate_distance_using_disparity]
    rw [if_pos h0]
  · intro hne
    refine ⟨?_, ?_⟩
    · simp only [calculate_distance_using_disparity]
      rw [if_neg hne]
    · intro hF hC
      have hFC : 0 < self.focal_length * (self.cameras_distance : ℝ) :=
        mul_pos hF (by exact_mod_cast hC)
      set d : ℝ := ((obj_center_left_x - obj_center_right_x : ℚ) : ℝ) with hd
      have hdne : d ≠ 0 := by
        rw [hd]
        exact_mod_cast hne
      constructor
      · constructor
        · intro hdpos
          exact div_pos hFC hdpos
        · intro hq
          rcases lt_trichotomy d 0 with hneg | hzero | hpos
          · exact absurd hq (not_lt.mpr
              (div_neg_of_pos_of_neg hFC hneg).le)
          · exact absurd hzero hdne
          · exact hpos
      · constructor
        · intro hdneg
          exact div_neg_of_pos_of_neg hFC hdneg
        · intro hq
          rcases lt_trichotomy d 0 with hneg | hzero | hpos
          · exact hneg
          · exact absurd hzero hdne
          · exact absurd hq (not_lt.mpr (div_pos hFC hpos).le)

/-- Witness for C6 at a concrete pair with equal object centers: the
disparity is zero and the result is the zero-disparity message. -/
theorem calculate_distance_using_disparity_spec_witness :
    calculate_distance_using_disparity (DistanceCalculation.make 55 (53/200))
        ⟨none, some 300, none⟩ ⟨none, some 300, none⟩ =
      ⟨none, "Disparity is zero, unable to calculate distance."⟩ :=
  (calculate_distance_using_disparity_spec (DistanceCalculation.make 55 (53/200))
    none none none none 300 300).1 (by norm_num)

/-- C7: both public methods always return a result value (a distance
entry plus a details text), and any key fault arising from a malformed
observation record is converted into an absent-distance result carrying
the fault description, never propagated to the caller. -/
theorem methods_always_return_results (self : DistanceCalculation)
    (left_image right_image : ImageDict) :
    (∃ d t, calculate_distance self left_image right_image = ⟨d, t⟩) ∧
    (∃ d t, calculate_distance_using_disparity self left_image right_image =
      ⟨d, t⟩) ∧
    ((left_image.img_center_x = none ∨ left_image.obj_center_x = none ∨
        left_image.angle_of_view_x = none ∨ right_image.img_center_x = none ∨
        right_image.obj_center_x = none ∨ right_image.angle_of_view_x = none) →
      ∃ k, calculate_distance self left_image right_image =
        ⟨none, "Error during distance calculation: " ++ k⟩) ∧
    ((left_image.obj_center_x = none ∨ right_image.obj_center_x = none) →
      ∃ k, calculate_distance_using_disparity self left_image right_image =
        ⟨none, "Error calculating distance using disparity: " ++ k⟩) := by
  refine ⟨⟨(calculate_distance self left_image right_image).distance,
      (calculate_distance self left_image right_image).details, rfl⟩,
    ⟨(calculate_distance_using_disparity self left_image right_image).distance,
      (calculate_distance_using_disparity self left_image right_image).details,
      rfl⟩, ?_, ?_⟩
  · intro hmiss
    cases h1 : left_image.img_center_x with
    | none => exact ⟨"img_center_x", by simp only [calculate_distance, h1]; rfl⟩
    | some v1 =>
    cases h2 : left_image.obj_center_x with
    | none => exact ⟨"obj_center_x", by simp only [calculate_distance, h1, h2]; rfl⟩
    | some v2 =>
    cases h3 : left_image.angle_of_view_x with
    | none =>
      exact ⟨"angle_of_view_x", by simp only [calculate_distance, h1, h2, h3]; rfl⟩
    | some v3 =>
    cases h4 : right_image.img_center_x with
    | none =>
      exact ⟨"img_center_x", by simp only [calculate_distance, h1, h2, h3, h4]; rfl⟩
    | some v4 =>
    cases h5 : right_image.obj_center_x with
    | none =>
      exact ⟨"obj_center_x",
        by simp only [calculate_distance, h1, h2, h3, h4, h5]; rfl⟩
    | some v5 =>
    cases h6 : right_image.angle_of_view_x with
    | none =>
      exact ⟨"angle_of_view_x",
        by simp only [calculate_distance, h1, h2, h3, h4, h5, h6]; rfl⟩
    | some v6 =>
      rw [h1, h2, h3, h4, h5, h6] at hmiss
      simp at hmiss
  · intro hmiss
    cases h2 : left_image.obj_center_x with
    | none =>
      exact ⟨"obj_center_x",
        by simp only [calculate_distance_using_disparity, h2]; rfl⟩
    | some v2 =>
    cases h5 : right_image.obj_center_x with
    | none =>
      exact ⟨"obj_center_x",
        by simp only [calculate_distance_using_disparity, h2, h5]; rfl⟩
    | some v5 =>
      rw [h2, h5] at hmiss
      simp at hmiss

/-- Witness for C7: a record with all keys missing makes
`calculate_distance` return the caught-fault result. -/
theorem methods_always_return_results_witness :
    ∃ k, calculate_distance (DistanceCalculation.make 55 (53/200))
        ⟨none, none, none⟩ ⟨none, none, none⟩ =
      ⟨none, "Error during distance calculation: " ++ k⟩ :=
  (methods_always_return_results (DistanceCalculation.make 55 (53/200))
    ⟨none, none, none⟩ ⟨none, none, none⟩).2.2.1 (Or.inl rfl)

/-- The distance computation of §4.1 steps 4-6 of the spec, written from
the spec's words: `denom = sin(internal_angle_obj_rad)^2` with
`internal_angle_obj = 180 - (internal_angle_left + internal_angle_right)`;
absent distance if `denom` is exactly 0; `value_inside_sqrt =
2 * (sin(internal_angle_left_rad)^2 + sin(internal_angle_right_rad)^2) /
denom - 1`; absent distance if negative; otherwise `distance_m =
(baseline_m / 2) * sqrt(value_inside_sqrt)` with details
"Object is <case>.". -/
noncomputable def spec_distance_from_internal_angles (baseline_m : ℚ)
    (case_label : String) (internal_angle_left internal_angle_right : ℚ) :
    DistanceResult :=
  let internal_angle_obj_rad : ℝ :=
    radians (180 - (internal_angle_left + internal_angle_right))
  let denom : ℝ := Real.sin internal_angle_obj_rad ^ 2
  if denom = 0 then
    ⟨none, "Division by zero encountered in distance calculation."⟩
  else
    let value_inside_sqrt : ℝ :=
      2 * ((Real.sin ( radians internal_angle_left) ^ 2 +
        Real.sin ( radians internal_angle_right) ^ 2) / denom) - 1
    if value_inside_sqrt < 0 then
      ⟨none, "Invalid value inside square root in distance calculation."⟩
    else
      ⟨some (((baseline_m : ℝ) / 2) * Real.sqrt value_inside_sqrt),
        "Object is " ++ case_label ++ "."⟩

/-- C2: for every classified pair whose internal object angle is
positive, `calculate_distance` computes exactly the spec's step 4-6
formula: the squared-sine denominator with its zero guard, the
`value_inside_sqrt` with its negativity guard, and the final
`(baseline / 2) * sqrt(value_inside_sqrt)` with the case text. -/
theorem calculate_distance_formula_refinement (self : DistanceCalculation)
    (i1 o1 al i2 o2 ar : ℚ) (case_label : String) (A B : ℚ)
    (hc : classify al ar = some (case_label, A, B))
    (hpos : 0 < 180 - (A + B)) :
    calculate_distance self ⟨some i1, some o1, some al⟩
        ⟨some i2, some o2, some ar⟩ =
      spec_distance_from_internal_angles self.cameras_distance case_label
        A B := by
  simp only [calculate_distance, hc, triangulate,
    spec_distance_from_internal_angles]
  rw [if_neg (not_le.mpr hpos)]

/-- Witness for C2 at the spec's concrete scenario (angles -10 and 8,
internal angles 80 and 82, object angle 18 > 0). -/
theorem calculate_distance_formula_refinement_witness :
    calculate_distance (DistanceCalculation.make 55 (53/200))
        ⟨some 320, some 100, some (-10)⟩ ⟨some 320, some 200, some 8⟩ =
      spec_distance_from_internal_angles (53/200) "between the cameras"
        80 82 :=
  calculate_distance_formula_refinement (DistanceCalculation.make 55 (53/200))
    320 100 (-10) 320 200 8 "between the cameras" 80 82
    classify_neg_ten_eight (by norm_num)

/-- Helper: a degree value strictly between 0 and 90 converts to a
radian value strictly between 0 and pi/2. -/
theorem radians_mem_Ioo (A : ℚ) (h0 : 0 < A) (h9 : A < 90) :
    0 < radians A ∧ radians A < Real.pi / 2 := by
  have h0' : (0 : ℝ) < (A : ℝ) := by exact_mod_cast h0
  have h9' : (A : ℝ) < 90 := by exact_mod_cast h9
  constructor
  · simp only [radians]
    exact div_pos (mul_pos h0' Real.pi_pos) (by norm_num)
  · simp only [radians]
    nlinarith [mul_pos (sub_pos.mpr h9') Real.pi_pos]

/-- Helper identity behind the radicand's positivity:
`2 sin^2 a + 2 sin^2 b - sin^2 (a+b)` rewritten as an explicit sum of a
square and a product of positives. -/
theorem two_sin_sq_identity (a b : ℝ) :
    2 * Real.sin a ^ 2 + 2 * Real.sin b ^ 2 - Real.sin (a + b) ^ 2 =
      (Real.sin a - Real.sin b) ^ 2 +
        2 * Real.sin a * Real.sin b * (1 - Real.cos (a + b)) := by
  rw [Real.sin_add, Real.cos_add]
  linear_combination (-(Real.sin a ^ 2)) * Real.sin_sq_add_cos_sq b -
    Real.sin b ^ 2 * Real.sin_sq_add_cos_sq a

/-- Helper: for internal camera angles strictly between 0 and 90 degrees
and a positive baseline, the triangulation tail takes no guard branch and
returns a strictly positive distance with the case text. -/
theorem triangulate_pos (cameras_distance : ℚ) (case_label : String)
    (A B : ℚ) (hA0 : 0 < A) (hA9 : A < 90) (hB0 : 0 < B) (hB9 : B < 90)
    (hcd : 0 < cameras_distance) :
    ∃ d : ℝ, triangulate cameras_distance case_label A B =
      ⟨some d, "Object is " ++ case_label ++ "."⟩ ∧ 0 < d := by
  have hobj0 : (0 : ℚ) < 180 - (A + B) := by linarith
  obtain ⟨ha0, ha2⟩ := radians_mem_Ioo A hA0 hA9
  obtain ⟨hb0, hb2⟩ := radians_mem_Ioo B hB0 hB9
  have hsum : radians (180 - (A + B)) =
      Real.pi - ( radians A + radians B) := by
    simp only [radians]
    push_cast
    ring
  have hsin_obj : Real.sin ( radians (180 - (A + B))) =
      Real.sin ( radians A + radians B) := by
    rw [hsum, Real.sin_pi_sub]
  have hab0 : 0 < radians A + radians B := by linarith
  have habpi : radians A + radians B < Real.pi := by linarith
  have hsab : 0 < Real.sin ( radians A + radians B) :=
    Real.sin_pos_of_pos_of_lt_pi hab0 habpi
  have hden : 0 < Real.sin ( radians (180 - (A + B))) ^ 2 := by
    rw [hsin_obj]
    positivity
  have hsa : 0 < Real.sin ( radians A) :=
    Real.sin_pos_of_pos_of_lt_pi ha0 (by linarith [Real.pi_pos])
  have hsb : 0 < Real.sin ( radians B) :=
    Real.sin_pos_of_pos_of_lt_pi hb0 (by linarith [Real.pi_pos])
  have hcab : Real.cos ( radians A + radians B) < 1 := by
    have h := Real.cos_lt_cos_of_nonneg_of_le_pi (le_refl (0 : ℝ))
      habpi.le hab0
    rwa [Real.cos_zero] at h
  have hE : 0 < 2 * Real.sin ( radians A) ^ 2 +
      2 * Real.sin ( radians B) ^ 2 -
      Real.sin ( radians A + radians B) ^ 2 := by
    rw [two_sin_sq_identity]
    have h1 : 0 < 2 * Real.sin ( radians A) * Real.sin ( radians B) *
        (1 - Real.cos ( radians A + radians B)) :=
      mul_pos (mul_pos (mul_pos two_pos hsa) hsb) (sub_pos.mpr hcab)
    nlinarith [sq_nonneg (Real.sin ( radians A) - Real.sin ( radians B))]
  have hv : 0 < 2 * ((Real.sin ( radians A) ^ 2 +
      Real.sin ( radians B) ^ 2) /
      Real.sin ( radians (180 - (A + B))) ^ 2) - 1 := by
    have heq : 2 * ((Real.sin ( radians A) ^ 2 +
        Real.sin ( radians B) ^ 2) /
        Real.sin ( radians (180 - (A + B))) ^ 2) - 1 =
        (2 * Real.sin ( radians A) ^ 2 + 2 * Real.sin ( radians B) ^ 2 -
          Real.sin ( radians A + radians B) ^ 2) /
          Real.sin ( radians A + radians B) ^ 2 := by
      rw [hsin_obj]
      field_simp
      ring
    rw [heq]
    exact div_pos hE (by positivity)
  simp only [triangulate]
  rw [if_neg (not_le.mpr hobj0), if_neg hden.ne', if_neg (not_lt.mpr hv.le)]
  refine ⟨((cameras_distance : ℝ) / 2) * Real.sqrt
    (2 * ((Real.sin ( radians A) ^ 2 + Real.sin ( radians B) ^ 2) /
      Real.sin ( radians (180 - (A + B))) ^ 2) - 1), rfl, ?_⟩
  have hcd' : (0 : ℝ) < (cameras_distance : ℝ) := by exact_mod_cast hcd
  exact mul_pos (by linarith) (Real.sqrt_pos.mpr hv)

/-- C3 counterexample: the claim's own triangle-forming condition (the
two internal angles sum to less than 180 degrees) holds at left angle
-90 and right angle 90 (the internal angles are 0 and 0), yet
`calculate_distance` returns an absent distance there, not a present
positive one. -/
theorem triangle_forming_claim_counterexample :
    (((-90 : ℚ) < 0 ∧ (0 : ℚ) < 90) ∧
      (90 - |(-90 : ℚ)|) + (90 - |(90 : ℚ)|) < 180) ∧
    (calculate_distance (DistanceCalculation.make 55 (53/200))
        ⟨some 320, some 400, some (-90)⟩
        ⟨some 320, some 200, some 90⟩).distance = none := by
  refine ⟨⟨⟨by norm_num, by norm_num⟩, by norm_num⟩, ?_⟩
  have hc : classify (-90) 90 = some ("between the cameras", 0, 0) := by
    rw [classify, if_pos (by norm_num : (-90 : ℚ) < 0 ∧ (0 : ℚ) < 90)]
    norm_num
  have hrad : radians (180 - ((0 : ℚ) + 0)) = Real.pi := by
    simp only [radians]
    push_cast
    ring
  have hden : Real.sin ( radians (180 - ((0 : ℚ) + 0))) ^ 2 = 0 := by
    rw [hrad, Real.sin_pi]
    norm_num
  simp only [calculate_distance, hc, triangulate]
  rw [if_neg (by norm_num : ¬((180 : ℚ) - (0 + 0) ≤ 0)), if_pos hden]

/-- C3 (amended): for every observation pair with left angle
strictly between -90 and 0 and right angle strictly between 0 and 90
(so both internal camera angles are strictly positive and the three
internal angles form a genuine triangle) and a positive configured
baseline, `calculate_distance` returns a present strictly positive
distance with the case text "between the cameras"; at the concrete
scenario fov 55, baseline 0.265, angles -10 and 8 the internal angles
are 80, 82 and 18 and the distance is positive. -/
theorem calculate_distance_between_positive (self : DistanceCalculation)
    (i1 o1 i2 o2 : ℚ) (al ar : ℚ)
    (hal : al < 0) (har : 0 < ar) (hal9 : -90 < al) (har9 : ar < 90)
    (hbase : 0 < self.cameras_distance) :
    ∃ d : ℝ, calculate_distance self ⟨some i1, some o1, some al⟩
        ⟨some i2, some o2, some ar⟩ =
      ⟨some d, "Object is between the cameras."⟩ ∧ 0 < d := by
  have hc : classify al ar =
      some ("between the cameras", 90 - |al|, 90 - |ar|) := by
    rw [classify, if_pos ⟨hal, har⟩]
  have hA0 : (0 : ℚ) < 90 - |al| := by
    rw [abs_of_neg hal]
    linarith
  have hA9 : 90 - |al| < 90 := by
    rw [abs_of_neg hal]
    linarith
  have hB0 : (0 : ℚ) < 90 - |ar| := by
    rw [abs_of_pos har]
    linarith
  have hB9 : 90 - |ar| < 90 := by
    rw [abs_of_pos har]
    linarith
  obtain ⟨d, hd, hdpos⟩ := triangulate_pos self.cameras_distance
    "between the cameras" (90 - |al|) (90 - |ar|) hA0 hA9 hB0 hB9 hbase
  refine ⟨d, ?_, hdpos⟩
  simp only [calculate_distance, hc]
  rw [hd]
  rfl

/-- Witness for C3 (amended) at the spec's concrete scenario: fov 55,
baseline 0.265, left angle -10, right angle 8; the classification gives
internal angles 80 and 82 (object angle 18) and the returned distance is
present and positive. -/
theorem calculate_distance_between_positive_witness :
    classify (-10) 8 = some ("between the cameras", 80, 82) ∧
    ∃ d : ℝ, calculate_distance (DistanceCalculation.make 55 (53/200))
        ⟨some 320, some 100, some (-10)⟩ ⟨some 320, some 200, some 8⟩ =
      ⟨some d, "Object is between the cameras."⟩ ∧ 0 < d :=
  ⟨classify_neg_ten_eight,
    calculate_distance_between_positive (DistanceCalculation.make 55 (53/200))
      320 100 320 200 (-10) 8 (by norm_num) (by norm_num) (by norm_num)
      (by norm_num) (by norm_num [DistanceCalculation.make])⟩

/-- Helper: angle-doubling step for certified sine and cosine interval
bounds on an angle with nonnegative sine and cosine. -/
theorem sin_cos_double_step (t sl su cl cu : ℝ)
    (hsl : sl ≤ Real.sin t) (hsu : Real.sin t ≤ su)
    (hcl : cl ≤ Real.cos t) (hcu : Real.cos t ≤ cu)
    (h0s : 0 ≤ sl) (h0c : 0 ≤ cl) :
    (2 * sl * cl ≤ Real.sin (2 * t) ∧ Real.sin (2 * t) ≤ 2 * su * cu) ∧
    (1 - 2 * su ^ 2 ≤ Real.cos (2 * t) ∧
      Real.cos (2 * t) ≤ 1 - 2 * sl ^ 2) := by
  have hc2 : Real.cos (2 * t) = 1 - 2 * Real.sin t ^ 2 := by
    rw [Real.cos_two_mul']
    linear_combination Real.sin_sq_add_cos_sq t
  rw [Real.sin_two_mul, hc2]
  refine ⟨⟨?_, ?_⟩, ?_, ?_⟩ <;> nlinarith

/-- Helper: Taylor bounds for the sine and cosine of `11 * pi / 1152`,
one sixteenth of the 27.5-degree half field of view in radians. -/
theorem sin_cos_base_bounds :
    ((0.029993298992 : ℝ) ≤ Real.sin (11 * Real.pi / 1152) ∧
      Real.sin (11 * Real.pi / 1152) ≤ 0.029993393048) ∧
    ((0.999550022325 : ℝ) ≤ Real.cos (11 * Real.pi / 1152) ∧
      Real.cos (11 * Real.pi / 1152) ≤ 0.999550106968) := by
  set y : ℝ := 11 * Real.pi / 1152 with hy
  have hylo : (0.0299978402 : ℝ) ≤ y := by
    rw [hy]
    linarith [Real.pi_gt_d6]
  have hyhi : y ≤ (0.0299978499 : ℝ) := by
    rw [hy]
    linarith [Real.pi_lt_d6]
  have hy0 : (0 : ℝ) < y := by linarith
  have hy1 : |y| ≤ 1 := by
    rw [abs_of_pos hy0]
    linarith
  have hs := Real.sin_bound hy1
  have hc := Real.cos_bound hy1
  rw [abs_of_pos hy0] at hs hc
  rw [abs_le] at hs hc
  have h2lo : (0.0299978402 : ℝ) ^ 2 ≤ y ^ 2 :=
    pow_le_pow_left (by norm_num) hylo 2
  have h2hi : y ^ 2 ≤ (0.0299978499 : ℝ) ^ 2 :=
    pow_le_pow_left hy0.le hyhi 2
  have h3lo : (0.0299978402 : ℝ) ^ 3 ≤ y ^ 3 :=
    pow_le_pow_left (by norm_num) hylo 3
  have h3hi : y ^ 3 ≤ (0.0299978499 : ℝ) ^ 3 :=
    pow_le_pow_left hy0.le hyhi 3
  have h4hi : y ^ 4 ≤ (0.0299978499 : ℝ) ^ 4 :=
    pow_le_pow_left hy0.le hyhi 4
  refine ⟨⟨?_, ?_⟩, ?_, ?_⟩
  · linarith [hs.1]
  · linarith [hs.2]
  · linarith [hc.1]
  · linarith [hc.2]

/-- Helper: certified bounds for the sine and cosine of `11 * pi / 72`
(27.5 degrees in radians), obtained by doubling four times from the
Taylor bounds at one sixteenth of the angle. -/
theorem sin_cos_fov_half_bounds :
    ((0.461747774119 : ℝ) ≤ Real.sin (11 * Real.pi / 72) ∧
      Real.sin (11 * Real.pi / 72) ≤ 0.461749376040) ∧
    ((0.887010482600 : ℝ) ≤ Real.cos (11 * Real.pi / 72) ∧
      Real.cos (11 * Real.pi / 72) ≤ 0.887011223481) := by
  obtain ⟨⟨hs0l, hs0u⟩, hc0l, hc0u⟩ := sin_cos_base_bounds
  have st1 := sin_cos_double_step (11 * Real.pi / 1152) _ _ _ _
    hs0l hs0u hc0l hc0u (by norm_num) (by norm_num)
  rw [(by ring : 2 * (11 * Real.pi / 1152) = 11 * Real.pi / 576)] at st1
  have hs1l : (0.059959605354 : ℝ) ≤ Real.sin (11 * Real.pi / 576) :=
    le_trans (by norm_num) st1.1.1
  have hs1u : Real.sin (11 * Real.pi / 576) ≤ 0.059959798459 :=
    le_trans st1.1.2 (by norm_num)
  have hc1l : (0.998200792746 : ℝ) ≤ Real.cos (11 * Real.pi / 576) :=
    le_trans (by norm_num) st1.2.1
  have hc1u : Real.cos (11 * Real.pi / 576) ≤ 0.998200804032 :=
    le_trans st1.2.2 (by norm_num)
  have st2 := sin_cos_double_step (11 * Real.pi / 576) _ _ _ _
    hs1l hs1u hc1l hc1u (by norm_num) (by norm_num)
  rw [(by ring : 2 * (11 * Real.pi / 576) = 11 * Real.pi / 288)] at st2
  have hs2l : (0.119703451194 : ℝ) ≤ Real.sin (11 * Real.pi / 288) :=
    le_trans (by norm_num) st2.1.1
  have hs2u : Real.sin (11 * Real.pi / 288) ≤ 0.119703838063 :=
    le_trans st2.1.2 (by norm_num)
  have hc2l : (0.992809645137 : ℝ) ≤ Real.cos (11 * Real.pi / 288) :=
    le_trans (by norm_num) st2.2.1
  have hc2u : Real.cos (11 * Real.pi / 288) ≤ 0.992809691452 :=
    le_trans st2.2.2 (by norm_num)
  have st3 := sin_cos_double_step (11 * Real.pi / 288) _ _ _ _
    hs2l hs2u hc2l hc2u (by norm_num) (by norm_num)
  rw [(by ring : 2 * (11 * Real.pi / 288) = 11 * Real.pi / 144)] at st3
  have hs3l : (0.237685481803 : ℝ) ≤ Real.sin (11 * Real.pi / 144) :=
    le_trans (by norm_num) st3.1.1
  have hs3u : Real.sin (11 * Real.pi / 144) ≤ 0.237686261066 :=
    le_trans st3.1.2 (by norm_num)
  have hc3l : (0.971341982305 : ℝ) ≤ Real.cos (11 * Real.pi / 144) :=
    le_trans (by norm_num) st3.2.1
  have hc3u : Real.cos (11 * Real.pi / 144) ≤ 0.971342167545 :=
    le_trans st3.2.2 (by norm_num)
  have st4 := sin_cos_double_step (11 * Real.pi / 144) _ _ _ _
    hs3l hs3u hc3l hc3u (by norm_num) (by norm_num)
  rw [(by ring : 2 * (11 * Real.pi / 144) = 11 * Real.pi / 72)] at st4
  refine ⟨⟨le_trans (by norm_num) st4.1.1, le_trans st4.1.2 (by norm_num)⟩,
    le_trans (by norm_num) st4.2.1, le_trans st4.2.2 (by norm_num)⟩

/-- Helper: the focal length expression for a 55-degree field of view
lies strictly between 614.70 and 614.72 pixels. -/
theorem focal_length_55_bounds :
    (614.70 : ℝ) < 640 / (2 * Real.tan ( radians ((55 : ℚ) / 2))) ∧
    640 / (2 * Real.tan ( radians ((55 : ℚ) / 2))) < 614.72 := by
  have hx : radians ((55 : ℚ) / 2) = 11 * Real.pi / 72 := by
    simp only [radians]
    push_cast
    ring
  obtain ⟨⟨hsl, hsu⟩, hcl, hcu⟩ := sin_cos_fov_half_bounds
  have hspos : 0 < Real.sin (11 * Real.pi / 72) := by linarith
  have hcpos : 0 < Real.cos (11 * Real.pi / 72) := by linarith
  have htan : 640 / (2 * Real.tan (11 * Real.pi / 72)) =
      320 * Real.cos (11 * Real.pi / 72) / Real.sin (11 * Real.pi / 72) := by
    rw [Real.tan_eq_sin_div_cos]
    field_simp
    ring
  rw [hx, htan]
  constructor
  · rw [lt_div_iff hspos]
    linarith
  · rw [div_lt_iff hspos]
    linarith

/-- C8 counterexample: for field of view 55 the focal length is below
614.72, hence more than 1e-2 away from the value 615.04 the claim
states. -/
theorem focal_length_value_counterexample :
    ¬ |(DistanceCalculation.make 55 (53/200)).focal_length - 615.04| <
      0.01 := by
  have h := focal_length_55_bounds
  have heq : (DistanceCalculation.make 55 (53/200)).focal_length =
      640 / (2 * Real.tan ( radians ((55 : ℚ) / 2))) := rfl
  rw [heq, abs_lt]
  push_neg
  intro h1
  linarith [h.2]

/-- C8 (amended): at construction with field of view f the engine sets
`focal_length` to `640 / (2 * tan(radians(f / 2)))` using the fixed
reference width 640, the value is never mutated by
`update_pixel_to_angle_ratio` (the two distance methods do not write the
state at all), and for f = 55 it equals about 614.71 within tolerance
1e-2. -/
theorem focal_length_spec (f b w : ℚ) :
    (DistanceCalculation.make f b).focal_length =
      640 / (2 * Real.tan ( radians (f / 2))) ∧
    ( update_pixel_to_angle_ratio (DistanceCalculation.make f b)
        w).focal_length = (DistanceCalculation.make f b).focal_length ∧
    (f = 55 → |(DistanceCalculation.make f b).focal_length - 614.71| <
      0.01) := by
  refine ⟨rfl, rfl, ?_⟩
  rintro rfl
  have h := focal_length_55_bounds
  have heq : (DistanceCalculation.make 55 b).focal_length =
      640 / (2 * Real.tan ( radians ((55 : ℚ) / 2))) := rfl
  rw [heq, abs_lt]
  constructor <;> linarith [h.1, h.2]

/-- Witness for C8 (amended) at fov 55, baseline 0.265, width 320. -/
theorem focal_length_spec_witness :
    (55 : ℚ) = 55 ∧
    |(DistanceCalculation.make 55 (53/200)).focal_length - 614.71| <
      0.01 :=
  ⟨rfl, (focal_length_spec 55 (53/200) 320).2.2 rfl⟩

end ObjDetection
